import Mathlib

/-!
Verification of the Gompertz forecasting core (`src/app.js`).

The JavaScript code computes over IEEE doubles; the shallow embedding uses
exact reals `ℝ` for finite values and an explicit type `JSNum` with `nan`,
`inf` and `neginf` constructors wherever the code's behaviour on non-finite
numbers matters (`isFinite` guards, fallbacks, `NaN` propagation).  In the
exact-real embedding the transcendental functions never overflow, so the
`isFinite` checks that can only fail through floating-point overflow become
vacuously true; all other control flow is translated verbatim.
-/

namespace Gompertz

/-- A JavaScript number: a finite real, `NaN`, `Infinity` or `-Infinity`. -/
inductive JSNum where
  | fin (x : ℝ) : JSNum
  | nan : JSNum
  | inf : JSNum
  | neginf : JSNum

namespace JSNum

/-- JavaScript `isFinite`. -/
def isFinite : JSNum → Bool
  | fin _ => true
  | _ => false

/-- The real value of a finite `JSNum` (junk value `0` otherwise). -/
noncomputable def toReal : JSNum → ℝ
  | fin x => x
  | _ => 0

/-- JavaScript `<` (any comparison with `NaN` is false). -/
noncomputable def jlt : JSNum → JSNum → Bool
  | fin x, fin y => if x < y then true else false
  | fin _, inf => true
  | neginf, fin _ => true
  | neginf, inf => true
  | _, _ => false

/-- JavaScript subtraction. -/
noncomputable def jsub : JSNum → JSNum → JSNum
  | fin x, fin y => fin (x - y)
  | fin _, inf => neginf
  | fin _, neginf => inf
  | inf, fin _ => inf
  | neginf, fin _ => neginf
  | inf, neginf => inf
  | neginf, inf => neginf
  | _, _ => nan

/-- JavaScript addition. -/
noncomputable def jadd : JSNum → JSNum → JSNum
  | fin x, fin y => fin (x + y)
  | fin _, inf => inf
  | inf, fin _ => inf
  | fin _, neginf => neginf
  | neginf, fin _ => neginf
  | inf, inf => inf
  | neginf, neginf => neginf
  | _, _ => nan

/-- JavaScript multiplication (`0 * Infinity` is `NaN`). -/
noncomputable def jmul : JSNum → JSNum → JSNum
  | fin x, fin y => fin (x * y)
  | fin x, inf => if x = 0 then nan else if 0 < x then inf else neginf
  | inf, fin x => if x = 0 then nan else if 0 < x then inf else neginf
  | fin x, neginf => if x = 0 then nan else if 0 < x then neginf else inf
  | neginf, fin x => if x = 0 then nan else if 0 < x then neginf else inf
  | inf, inf => inf
  | neginf, neginf => inf
  | inf, neginf => neginf
  | neginf, inf => neginf
  | _, _ => nan

/-- JavaScript division (division by `0` gives a signed infinity, `0/0` is
`NaN`; a finite value divided by an infinity gives `0`). -/
noncomputable def jdiv : JSNum → JSNum → JSNum
  | fin x, fin y =>
      if y = 0 then (if x = 0 then nan else if 0 < x then inf else neginf)
      else fin (x / y)
  | fin _, inf => fin 0
  | fin _, neginf => fin 0
  | inf, fin y => if 0 ≤ y then inf else neginf
  | neginf, fin y => if 0 ≤ y then neginf else inf
  | _, _ => nan

/-- JavaScript `Math.min` (`NaN` absorbs). -/
noncomputable def jmin : JSNum → JSNum → JSNum
  | nan, _ => nan
  | _, nan => nan
  | neginf, _ => neginf
  | _, neginf => neginf
  | inf, b => b
  | a, inf => a
  | fin x, fin y => fin (min x y)

/-- JavaScript `Math.max` (`NaN` absorbs). -/
noncomputable def jmax : JSNum → JSNum → JSNum
  | nan, _ => nan
  | _, nan => nan
  | inf, _ => inf
  | _, inf => inf
  | neginf, b => b
  | a, neginf => a
  | fin x, fin y => fin (max x y)

/-- JavaScript `Math.exp`. -/
noncomputable def jexp : JSNum → JSNum
  | fin x => fin (Real.exp x)
  | nan => nan
  | inf => inf
  | neginf => fin 0

end JSNum

/-- The numeric core of `gompertzModel` (`src/app.js` lines 78-100): both
exponents are clamped into `[-700, 700]` before exponentiation. -/
noncomputable def gompertzReal (t K b t0 : ℝ) : ℝ :=
  K * Real.exp (max (-700) (min 700 (-(Real.exp (max (-700) (min 700 (-b * (t - t0))))))))

/-- The function `gompertzModel(t, K, b, t0)` (`src/app.js` lines 67-101).  Parameters are
already finite reals here (the source's non-finite-parameter guard is handled
by the `JSNum` wrappers at the call sites); `K ≤ 0` or `b ≤ 0` yields `NaN`.
In exact real arithmetic the intermediate overflow checks cannot fire. -/
noncomputable def gompertzModel (t K b t0 : ℝ) : JSNum :=
  if K ≤ 0 ∨ b ≤ 0 then .nan else .fin (gompertzReal t K b t0)

/-- Fitted parameter triple `{K, b, t0}`. -/
structure GompertzParams where
  K : ℝ
  b : ℝ
  t0 : ℝ

/-- The record returned by `fitGompertzCurve`. -/
structure FitResult where
  params : GompertzParams
  r2 : ℝ
  rmse : ℝ
  valid : Bool

/-- JavaScript `Math.max(...data)` for a non-empty list (the empty case is never reached
by the fitter's callers; it is given the junk value `0`). -/
noncomputable def listMax : List ℝ → ℝ
  | [] => 0
  | x :: xs => xs.foldl max x

/-- Grid-search candidate multipliers for `K` (`src/app.js` line 116). -/
noncomputable def K_steps : List ℝ := [1.1, 1.3, 1.5, 2.0, 2.5]

/-- Grid-search candidates for `b` (`src/app.js` line 117). -/
noncomputable def b_steps : List ℝ := [0.05, 0.1, 0.15, 0.2, 0.3, 0.4]

/-- Grid-search candidates for `t0` (`src/app.js` line 118). -/
noncomputable def t0_steps (n : ℝ) : List ℝ := [-2, 0, n * 0.3, n * 0.5, n * 0.7, n + 2]

/-- Sum of squared errors of the model against `data` starting at index `i`
with accumulator `acc`; `none` when some prediction is `NaN` (the source
breaks out of the loop and discards the candidate, lines 128-144). -/
noncomputable def sse (K b t0 : ℝ) : ℕ → ℝ → List ℝ → Option ℝ
  | _, acc, [] => some acc
  | i, acc, d :: ds =>
      match gompertzModel (i : ℝ) K b t0 with
      | .fin p => sse K b t0 (i + 1) (acc + (d - p) ^ 2) ds
      | _ => none

/-- One candidate update of the running best (strict `<` against the current
best error, first minimum wins). -/
noncomputable def updateBest (data : List ℝ) (best : Option (GompertzParams × ℝ))
    (K b t0 : ℝ) : Option (GompertzParams × ℝ) :=
  match sse K b t0 0 0 data with
  | none => best
  | some e =>
      match best with
      | none => some (⟨K, b, t0⟩, e)
      | some (p, be) => if e < be then some (⟨K, b, t0⟩, e) else some (p, be)

/-- The coarse grid search of `fitGompertzCurve` (`src/app.js` lines 115-147):
candidates with `K ≤ max` or `b` outside `(0, 1]` are rejected. -/
noncomputable def gridSearch (data : List ℝ) : Option (GompertzParams × ℝ) :=
  let n := data.length
  let maxAccounts := listMax data
  K_steps.foldl
    (fun best k_mult =>
      let K := maxAccounts * k_mult
      if K ≤ maxAccounts then best
      else
        b_steps.foldl
          (fun best b =>
            if b ≤ 0 ∨ b > 1 then best
            else
              (t0_steps (n : ℝ)).foldl
                (fun best t0 => updateBest data best K b t0) best)
          best)
    none

/-- Accumulated analytic gradients of the squared error over `data` starting
at index `i` (`src/app.js` lines 171-194); a point with `|exponent| > 100` is
skipped, a `NaN` prediction aborts the whole iteration (`none`). -/
noncomputable def grads (K b t0 : ℝ) : ℕ → ℝ × ℝ × ℝ → List ℝ → Option (ℝ × ℝ × ℝ)
  | _, acc, [] => some acc
  | i, (gK, gB, gT0), d :: ds =>
      match gompertzModel (i : ℝ) K b t0 with
      | .fin predicted =>
          let e := predicted - d
          let exponent := -b * ((i : ℝ) - t0)
          if |exponent| > 100 then grads K b t0 (i + 1) (gK, gB, gT0) ds
          else
            let exp_inner := Real.exp exponent
            let exp_outer := Real.exp (-exp_inner)
            grads K b t0 (i + 1)
              (gK + 2 * e * exp_outer,
               gB + 2 * e * K * exp_outer * exp_inner * ((i : ℝ) - t0),
               gT0 + 2 * e * K * exp_outer * exp_inner * b) ds
      | _ => none

/-- One gradient-descent update (`src/app.js` lines 196-216): learning rate
`0.001`, gradients divided by `n`; the update is accepted only when the new
`K` stays in `(max, 5·max)` and the new `b` in `(0.01, 1.0)`; otherwise the
refinement stops (`none`). -/
noncomputable def refineStep (data : List ℝ) (n maxAccounts : ℝ)
    (p : GompertzParams) : Option GompertzParams :=
  match grads p.K p.b p.t0 0 (0, 0, 0) data with
  | none => none
  | some (gK, gB, gT0) =>
      let newK := p.K - 0.001 * gK / n
      let newB := p.b - 0.001 * gB / n
      let newT0 := p.t0 - 0.001 * gT0 / n
      if newK > maxAccounts ∧ newK < maxAccounts * 5 ∧ newB > 0.01 ∧ newB < 1
      then some ⟨newK, newB, newT0⟩
      else none

/-- The bounded refinement loop (`iterations = 50` in the source). -/
noncomputable def refineParams (data : List ℝ) (n maxAccounts : ℝ) :
    ℕ → GompertzParams → GompertzParams
  | 0, p => p
  | fuel + 1, p =>
      match refineStep data n maxAccounts p with
      | none => p
      | some q => refineParams data n maxAccounts fuel q

/-- The `(ssRes, ssTot, hasNaNPredictions)` accumulation of the R² block
(`src/app.js` lines 240-252): a `NaN` prediction is skipped (both sums left
untouched for that index) and only flips the flag. -/
noncomputable def r2Stats (K b t0 mean : ℝ) :
    ℕ → ℝ → ℝ → Bool → List ℝ → ℝ × ℝ × Bool
  | _, ssRes, ssTot, hasNaN, [] => (ssRes, ssTot, hasNaN)
  | i, ssRes, ssTot, hasNaN, d :: ds =>
      match gompertzModel (i : ℝ) K b t0 with
      | .fin p =>
          r2Stats K b t0 mean (i + 1) (ssRes + (d - p) ^ 2)
            (ssTot + (d - mean) ^ 2) hasNaN ds
      | _ => r2Stats K b t0 mean (i + 1) ssRes ssTot true ds

/-- The statistics of the final fit: `r2Stats` run from index 0 with the mean
of the data, as in the source. -/
noncomputable def fitStats (p : GompertzParams) (data : List ℝ) : ℝ × ℝ × Bool :=
  r2Stats p.K p.b p.t0 (data.sum / (data.length : ℝ)) 0 0 0 false data

/-- The fitter `fitGompertzCurve(data)` (`src/app.js` lines 103-273): grid search, fixed
fallback when no grid candidate is valid, 50 refinement iterations, the
post-refinement corrective clamps on `K` and `b`, and the R²/RMSE block.  In
the exact-real embedding the final parameters are always finite, so the
`null` branch (non-finite final parameters, lines 222-226) is unreachable and
the function always returns `some`. -/
noncomputable def fitGompertzCurve (data : List ℝ) : Option FitResult :=
  let n := data.length
  let maxAccounts := listMax data
  let bestParams : GompertzParams :=
    match gridSearch data with
    | some (p, _) => p
    | none => ⟨maxAccounts * 1.5, 0.2, (n : ℝ) * 0.5⟩
  let refined := refineParams data (n : ℝ) maxAccounts 50 bestParams
  let K1 := if refined.K ≤ maxAccounts then maxAccounts * 1.2 else refined.K
  let b1 := if refined.b ≤ 0 ∨ refined.b > 1 then max 0.05 (min 0.5 refined.b)
            else refined.b
  let finalParams : GompertzParams := ⟨K1, b1, refined.t0⟩
  let stats := fitStats finalParams data
  let r2 := if stats.2.1 > 0 then max 0 (min 1 (1 - stats.1 / stats.2.1)) else 0
  let rmse := Real.sqrt (stats.1 / (n : ℝ))
  some ⟨finalParams, r2, rmse, !stats.2.2⟩

/-- The fitted parameters as passed to `applyIntervention`: each component is
a JavaScript number, so the source's own finiteness guard is meaningful. -/
structure JSParams where
  K : JSNum
  b : JSNum
  t0 : JSNum

/-- A named scenario's configuration (`state.scenarioParams.*`). -/
structure InterventionParams where
  alpha : JSNum
  delta_t : JSNum
  kappa : JSNum
  half_life : JSNum
  window_length : JSNum
  expansion_length : JSNum

open JSNum in
/-- The growth-acceleration factor block of `applyIntervention`
(`src/app.js` lines 297-313): active while `tSinceLaunch < window_length`,
with the decay exponent clamped into `[-100, 0]` and a fallback to `1` when
the decay factor is non-finite. -/
noncomputable def accelerationFactorOf (tSinceLaunch : JSNum)
    (interventionParams : InterventionParams) : JSNum :=
  if jlt tSinceLaunch interventionParams.window_length then
    let decayExponent :=
      jdiv (jmul (fin (-Real.log 2)) tSinceLaunch) interventionParams.half_life
    let clampedExp := jmax (fin (-100)) (jmin (fin 0) decayExponent)
    let decayFactor := jexp clampedExp
    if !decayFactor.isFinite then fin 1
    else
      let cappedAlpha := jmin (fin 0.5) (jmax (fin 0) interventionParams.alpha)
      jadd (fin 1) (jmul cappedAlpha decayFactor)
  else fin 1

open JSNum in
/-- The TAM-expansion factor block of `applyIntervention` (`src/app.js` lines
315-335): a smooth transition while `tSinceLaunch < expansion_length`, the
fully realized effect `1 + min(0.2, max(0, kappa))` afterwards. -/
noncomputable def capacityFactorOf (tSinceLaunch : JSNum)
    (interventionParams : InterventionParams) : JSNum :=
  if jlt tSinceLaunch interventionParams.expansion_length then
    let expansionProgress := jdiv tSinceLaunch interventionParams.expansion_length
    let expansionExp := jmul (fin (-3)) expansionProgress
    let clampedExpansion := jmax (fin (-100)) (jmin (fin 0) expansionExp)
    let expansionSmoother := jsub (fin 1) (jexp clampedExpansion)
    if !expansionSmoother.isFinite then fin 1
    else
      let cappedKappa := jmin (fin 0.2) (jmax (fin 0) interventionParams.kappa)
      jadd (fin 1) (jmul cappedKappa expansionSmoother)
  else
    let cappedKappa := jmin (fin 0.2) (jmax (fin 0) interventionParams.kappa)
    jadd (fin 1) cappedKappa

open JSNum in
/-- The scenario model `applyIntervention(t, baselineValue, params,
interventionParams, launchQuarter)` (`src/app.js` lines 275-363), translated
guard for guard:
non-finite `t`/`baselineValue` or non-finite fitted parameters return the
baseline; before launch the baseline is returned unchanged; the two
multiplicative factors are computed with clamped exponents and per-factor
finiteness fallbacks; any non-finite factor, adjusted parameter or final
model value falls back to the baseline. -/
noncomputable def applyIntervention (t baselineValue : JSNum) (params : JSParams)
    (interventionParams : InterventionParams) (launchQuarter : JSNum) : JSNum :=
  if !t.isFinite || !baselineValue.isFinite then baselineValue
  else if !params.K.isFinite || !params.b.isFinite || !params.t0.isFinite then
    baselineValue
  else if jlt t launchQuarter then baselineValue
  else
    let tSinceLaunch := jsub t launchQuarter
    let accelerationFactor := accelerationFactorOf tSinceLaunch interventionParams
    let capacityFactor := capacityFactorOf tSinceLaunch interventionParams
    if !accelerationFactor.isFinite || !capacityFactor.isFinite then baselineValue
    else
      let adjustedK := jmul params.K capacityFactor
      let adjustedB := jmul params.b (jmin (fin 2) accelerationFactor)
      let adjustedT0 := jsub params.t0 (jmin (fin 5) (jmax (fin 0) interventionParams.delta_t))
      if !adjustedK.isFinite || !adjustedB.isFinite || !adjustedT0.isFinite then
        baselineValue
      else
        let result := gompertzModel t.toReal adjustedK.toReal adjustedB.toReal adjustedT0.toReal
        if !result.isFinite then baselineValue else result

/-- Classification of a data point (`dataType` in the source). -/
inductive DataType where
  | Original | Missing | Interpolated | Corrected | Confirmed
deriving DecidableEq

/-- One row of `state.historicalData`.  For a missing row the source stores
`accounts = null`; that value is never read by the analyzed operations, so it
is embedded as the junk real `0`. -/
structure ObservedPoint where
  period : String
  accounts : ℝ
  isMissing : Bool
  isOutlier : Bool
  dataType : DataType

/-- The fallback point used for out-of-range list access in statements. -/
def pt0 : ObservedPoint := ⟨"", 0, false, false, .Original⟩

/-- The kinds of entries pushed onto the quality report's `issues` list, in
the source's push order (the title/description strings are presentation). -/
inductive IssueKind where
  | excellent
  | missingWarnLow
  | missingWarnHigh
  | missingError
  | outlierWarn
  | nonMonotonicWarn
  | insufficientError
  | fewValidWarn
deriving DecidableEq

/-- The record stored in `state.dataQuality`. -/
structure QualityReport where
  score : ℤ
  issues : List IssueKind
  missingCount : ℕ
  validCount : ℕ
  totalCount : ℕ

/-- Mean of a list of values (`reduce(...)/length`). -/
noncomputable def meanOf (l : List ℝ) : ℝ := l.sum / (l.length : ℝ)

/-- Population standard deviation as computed in `analyzeDataQuality`
(`src/app.js` line 503). -/
noncomputable def stdDevOf (l : List ℝ) : ℝ :=
  Real.sqrt ((l.map (fun v => (v - meanOf l) ^ 2)).sum / (l.length : ℝ))

/-- Count of quarters whose value is below the immediately preceding valid
value (`src/app.js` lines 526-530; index 0 never counts). -/
noncomputable def countDecreases : List ℝ → ℕ
  | a :: b :: rest => (if b < a then 1 else 0) + countDecreases (b :: rest)
  | _ => 0

/-- The analyzer `analyzeDataQuality()` (`src/app.js` lines 456-571).  Returns the quality
report together with the updated series (the source mutates `isOutlier` in
place on the valid points whose z-score exceeds 2; nothing else changes). -/
noncomputable def analyzeDataQuality (data : List ObservedPoint) :
    QualityReport × List ObservedPoint :=
  let missingCount := (data.filter (·.isMissing)).length
  let missingIssue : IssueKind × ℤ :=
    if missingCount = 0 then (.excellent, 0)
    else if missingCount ≤ 2 then (.missingWarnLow, 10 * missingCount)
    else if missingCount ≤ 5 then (.missingWarnHigh, 30)
    else (.missingError, 50)
  let validData := data.filter (fun d => !d.isMissing)
  let accounts := validData.map (·.accounts)
  let mean := meanOf accounts
  let stdDev := stdDevOf accounts
  let outlierCount :=
    if validData.length ≥ 5 then
      (accounts.filter (fun v => |(v - mean) / stdDev| > 2)).length
    else 0
  let newData :=
    if validData.length ≥ 5 then
      data.map (fun d =>
        if !d.isMissing ∧ |(d.accounts - mean) / stdDev| > 2 then
          { d with isOutlier := true }
        else d)
    else data
  let nonMonotonicCount := countDecreases accounts
  let validCount := validData.length
  let issues : List IssueKind :=
    [missingIssue.1]
      ++ (if outlierCount > 0 then [.outlierWarn] else [])
      ++ (if nonMonotonicCount > 0 then [.nonMonotonicWarn] else [])
      ++ (if validCount < 8 then [.insufficientError]
          else if validCount < 12 then [.fewValidWarn] else [])
  let score : ℤ :=
    100 - missingIssue.2
      - (if outlierCount > 0 then 5 * (outlierCount : ℤ) else 0)
      - (if nonMonotonicCount > 0 then 5 * (nonMonotonicCount : ℤ) else 0)
      - (if validCount < 8 then 40 else if validCount < 12 then 10 else 0)
  let score := max 0 (min 100 score)
  (⟨score, issues, missingCount, validCount, data.length⟩, newData)

/-- The operation `confirmCell(index)` (`src/app.js` lines 724-730): clear the
outlier flag, mark the point `Confirmed`, and immediately re-run
`analyzeDataQuality()` (line 727) on the updated series — which re-flags the
point when its z-score still exceeds 2.  The result is the
`state.historicalData` component after the call; the recomputed report goes to
`state.dataQuality` and lines 728-729 are rendering. -/
noncomputable def confirmCell (data : List ObservedPoint) (index : ℕ) :
    List ObservedPoint :=
  (analyzeDataQuality (data.set index
    { data.getD index pt0 with isOutlier := false, dataType := .Confirmed })).2

/-- The split step of JavaScript `String.prototype.split` with a one-character
separator, over the character list (an empty input gives one empty field,
as in JavaScript). -/
def splitCharAux (sep : Char) : List Char → List Char → List (List Char)
  | [], acc => [acc.reverse]
  | c :: cs, acc =>
      if c = sep then acc.reverse :: splitCharAux sep cs []
      else splitCharAux sep cs (c :: acc)

/-- JavaScript `String.prototype.split` with a one-character separator. -/
def jsSplit (sep : Char) (s : String) : List String :=
  (splitCharAux sep s.data []).map List.asString

/-- The whitespace characters relevant to the inputs at hand. -/
def isWhitespaceChar (c : Char) : Bool :=
  c = ' ' || c = '\t' || c = '\n' || c = '\r'

/-- JavaScript `String.prototype.trim`. -/
def jsTrim (s : String) : String :=
  (((s.data.dropWhile isWhitespaceChar).reverse.dropWhile
    isWhitespaceChar).reverse).asString

/-- JavaScript `String.prototype.toLowerCase` (ASCII fragment). -/
def jsToLower (s : String) : String := (s.data.map Char.toLower).asString

/-- The missing-data markers accepted by the parser (`src/app.js` line 421):
empty string, `-`, `null`, `na` (case-insensitive on the last two). -/
def isMissingMarker (s : String) : Bool :=
  s = "" || s = "-" || jsToLower s = "null" || jsToLower s = "na"

/-- The slice of the global `state` object touched by `parseAndDisplayData`. -/
structure AppState where
  historicalData : List ObservedPoint
  dataQuality : Option QualityReport

/-- The validation loop of `parseAndDisplayData` (`src/app.js` lines 406-434)
over the already-split lines.  `pf` models the JavaScript built-in
`parseFloat` (`none` when the result is `NaN`); everything else is translated
verbatim: blank lines are skipped, a line without exactly two comma-separated
fields, a non-numeric non-missing value, or a negative value throws. -/
noncomputable def parseLines (pf : String → Option ℝ) :
    List String → Except String (List ObservedPoint)
  | [] => .ok []
  | line :: rest =>
      if jsTrim line = "" then parseLines pf rest
      else
        let parts := jsSplit ',' line
        if parts.length ≠ 2 then .error "每行必須包含兩個值: 期間,帳戶數"
        else
          let period := jsTrim (parts.getD 0 "")
          let accountsStr := jsTrim (parts.getD 1 "")
          if isMissingMarker accountsStr then
            (parseLines pf rest).map
              (fun ds => ⟨period, 0, true, false, .Missing⟩ :: ds)
          else
            match pf accountsStr with
            | none => .error ("無效的帳戶數: " ++ accountsStr)
            | some accounts =>
                if accounts < 0 then .error ("帳戶數不能為負數: " ++ accountsStr)
                else
                  (parseLines pf rest).map
                    (fun ds => ⟨period, accounts, false, false, .Original⟩ :: ds)

/-- The entry point `parseAndDisplayData()` (`src/app.js` lines 398-453).  The raw textarea
content is split on newlines after trimming; any thrown validation error
(including fewer than 8 parsed rows) is caught and reported, leaving the
state untouched; on success the parsed series is stored and immediately
re-analyzed (which sets `state.dataQuality` and the outlier flags). -/
noncomputable def parseAndDisplayData (pf : String → Option ℝ) (input : String)
    (st : AppState) : AppState × Option String :=
  match parseLines pf (jsSplit '\n' (jsTrim input)) with
  | .error msg => (st, some msg)
  | .ok data =>
      if data.length < 8 then (st, some "至少需要 8 個數據點進行擬合")
      else
        let analyzed := analyzeDataQuality data
        (⟨analyzed.2, some analyzed.1⟩, none)

/-- The conditions under which a single non-blank line is rejected by the
parser: wrong field count, or a non-missing value that fails to parse or is
negative. -/
def badLine (pf : String → Option ℝ) (l : String) : Prop :=
  jsTrim l ≠ "" ∧
    ((jsSplit ',' l).length ≠ 2 ∨
      (isMissingMarker (jsTrim ((jsSplit ',' l).getD 1 "")) = false ∧
        (pf (jsTrim ((jsSplit ',' l).getD 1 "")) = none ∨
          ∃ x, pf (jsTrim ((jsSplit ',' l).getD 1 "")) = some x ∧ x < 0)))

/-! ## Claims about `applyIntervention` -/

/-- C2: for every `t` strictly below `launchQuarter` (JavaScript `<`), and for
all baseline values, fitted parameters and scenario parameters,
`applyIntervention` returns exactly `baselineValue`, unchanged. -/
theorem applyIntervention_before_launch (t baselineValue : JSNum)
    (params : JSParams) (interventionParams : InterventionParams)
    (launchQuarter : JSNum) (h : JSNum.jlt t launchQuarter = true) :
    applyIntervention t baselineValue params interventionParams launchQuarter
      = baselineValue := by
  unfold applyIntervention
  by_cases h1 : (!t.isFinite || !baselineValue.isFinite) = true
  · simp [h1]
  · by_cases h2 :
      (!params.K.isFinite || !params.b.isFinite || !params.t0.isFinite) = true
    · simp [h1, h2]
    · simp [h1, h2, h]

/-- Witness for C2 at `t = 0`, `launchQuarter = 1`, a concrete baseline and
concrete parameters. -/
theorem applyIntervention_before_launch_witness :
    applyIntervention (.fin 0) (.fin 5) ⟨.fin 10, .fin 1, .fin 2⟩
      ⟨.fin 0.1, .fin 0.5, .fin 0.02, .fin 6, .fin 6, .fin 8⟩ (.fin 1)
      = .fin 5 :=
  applyIntervention_before_launch _ _ _ _ _ (by norm_num [JSNum.jlt])

/-- Every call of `applyIntervention` with a finite baseline returns a finite
value: each return path yields either the baseline itself or a value that has
just passed an `isFinite` check. -/
theorem applyIntervention_isFinite_of_baseline (t baselineValue : JSNum)
    (params : JSParams) (interventionParams : InterventionParams)
    (launchQuarter : JSNum) (hbv : baselineValue.isFinite = true) :
    (applyIntervention t baselineValue params interventionParams
      launchQuarter).isFinite = true := by
  simp only [applyIntervention]
  repeat' split
  all_goals simp_all

/-- C4: for finite `t`, finite `baselineValue`, finite fitted parameters with
`K > 0` and `b > 0`, and arbitrary scenario parameters (in particular a
`half_life` of `0`, whose decay exponent overflows), `applyIntervention`
returns a finite number, never `NaN`. -/
theorem applyIntervention_never_nan (t baselineValue K b t0 : ℝ)
    (hK : 0 < K) (hb : 0 < b) (interventionParams : InterventionParams)
    (launchQuarter : JSNum) :
    (applyIntervention (.fin t) (.fin baselineValue) ⟨.fin K, .fin b, .fin t0⟩
      interventionParams launchQuarter).isFinite = true :=
  applyIntervention_isFinite_of_baseline _ _ _ _ _ rfl

/-- Witness for C4 with `half_life = 0` and launch already passed. -/
theorem applyIntervention_never_nan_witness :
    (applyIntervention (.fin 3) (.fin 7) ⟨.fin 2, .fin 1, .fin 0⟩
      ⟨.fin 0.1, .fin 0.5, .fin 0.02, .fin 0, .fin 6, .fin 8⟩
      (.fin 1)).isFinite = true :=
  applyIntervention_never_nan 3 7 2 1 0 (by norm_num) (by norm_num) _ _

/-- C9: when `t` or `baselineValue` is non-finite, `applyIntervention` returns
`baselineValue` unchanged for every choice of the remaining arguments (so a
`NaN` baseline yields a `NaN` result). -/
theorem applyIntervention_nonfinite_passthrough (t baselineValue : JSNum)
    (params : JSParams) (interventionParams : InterventionParams)
    (launchQuarter : JSNum)
    (h : t.isFinite = false ∨ baselineValue.isFinite = false) :
    applyIntervention t baselineValue params interventionParams launchQuarter
      = baselineValue := by
  unfold applyIntervention
  rcases h with h | h <;> simp [h]

/-- Witness for C9: a `NaN` time index passes the baseline through. -/
theorem applyIntervention_nonfinite_passthrough_witness :
    applyIntervention .nan (.fin 5) ⟨.fin 10, .fin 1, .fin 2⟩
      ⟨.fin 0.1, .fin 0.5, .fin 0.02, .fin 6, .fin 6, .fin 8⟩ (.fin 1)
      = .fin 5 :=
  applyIntervention_nonfinite_passthrough _ _ _ _ _ (Or.inl rfl)

/-! ## Claims about `gompertzModel` -/

/-- The clamp into `[-700, 700]` is monotone. -/
theorem clamp700_mono {x y : ℝ} (h : x ≤ y) :
    max (-700) (min 700 x) ≤ max (-700) (min 700 y) :=
  max_le_max le_rfl (min_le_min le_rfl h)

/-- C5: for fixed finite parameters with `K > 0` and `b > 0`,
`gompertzModel` is non-decreasing in `t`, the exponent clamping
notwithstanding. -/
theorem gompertzModel_monotone (K b t0 : ℝ) (hK : 0 < K) (hb : 0 < b)
    (t1 t2 : ℝ) (h : t1 ≤ t2) :
    (gompertzModel t1 K b t0).toReal ≤ (gompertzModel t2 K b t0).toReal := by
  have hcond : ¬(K ≤ 0 ∨ b ≤ 0) := by push_neg; exact ⟨hK, hb⟩
  simp only [gompertzModel, if_neg hcond, JSNum.toReal]
  unfold gompertzReal
  have h1 : -b * (t2 - t0) ≤ -b * (t1 - t0) := by nlinarith
  have h3 := Real.exp_le_exp.mpr (clamp700_mono h1)
  have h4 :
      -(Real.exp (max (-700) (min 700 (-b * (t1 - t0))))) ≤
        -(Real.exp (max (-700) (min 700 (-b * (t2 - t0))))) := by linarith
  exact mul_le_mul_of_nonneg_left
    (Real.exp_le_exp.mpr (clamp700_mono h4)) hK.le

/-- Witness for C5 at `K = 1`, `b = 1`, `t0 = 0`, `t1 = 0 ≤ t2 = 1`. -/
theorem gompertzModel_monotone_witness :
    (gompertzModel 0 1 1 0).toReal ≤ (gompertzModel 1 1 1 0).toReal :=
  gompertzModel_monotone 1 1 0 (by norm_num) (by norm_num) 0 1 (by norm_num)

/-- C8: for every `t` and finite parameters with `K > 0` and `b > 0`,
`gompertzModel` returns `NaN` or a value `v` with `0 < v ≤ K`. -/
theorem gompertzModel_pos_le_K (t K b t0 : ℝ) (hK : 0 < K) (hb : 0 < b) :
    gompertzModel t K b t0 = .nan ∨
      ∃ v, gompertzModel t K b t0 = .fin v ∧ 0 < v ∧ v ≤ K := by
  right
  have hcond : ¬(K ≤ 0 ∨ b ≤ 0) := by push_neg; exact ⟨hK, hb⟩
  refine ⟨gompertzReal t K b t0, by simp [gompertzModel, hcond], ?_, ?_⟩
  · unfold gompertzReal; positivity
  · unfold gompertzReal
    have houter :
        max (-700 : ℝ)
          (min 700 (-(Real.exp (max (-700) (min 700 (-b * (t - t0))))))) ≤ 0 :=
      max_le (by norm_num)
        (le_trans (min_le_right _ _) (neg_nonpos.mpr (Real.exp_pos _).le))
    have hle1 :
        Real.exp (max (-700 : ℝ)
          (min 700 (-(Real.exp (max (-700) (min 700 (-b * (t - t0)))))))) ≤ 1 := by
      calc Real.exp _ ≤ Real.exp 0 := Real.exp_le_exp.mpr houter
        _ = 1 := Real.exp_zero
    exact mul_le_of_le_one_right hK.le hle1

/-- Witness for C8 at `t = 2`, `K = 3`, `b = 1`, `t0 = 0`. -/
theorem gompertzModel_pos_le_K_witness :
    gompertzModel 2 3 1 0 = .nan ∨
      ∃ v, gompertzModel 2 3 1 0 = .fin v ∧ 0 < v ∧ v ≤ 3 :=
  gompertzModel_pos_le_K 2 3 1 0 (by norm_num) (by norm_num)

/-! ## Claims about `fitGompertzCurve` -/

/-- C3: for every input series, any non-null fit result has `r2 ∈ [0, 1]`,
`r2 = 0` whenever the accumulated total sum of squares is `0`, and
`valid = true` only if no model prediction over the series was non-finite
(`fitStats` is exactly the `(ssRes, ssTot, hasNaNPredictions)` accumulation
the source performs with the final parameters). -/
theorem fit_result_form (data : List ℝ) :
    ∃ P : GompertzParams, fitGompertzCurve data = some
      ⟨P,
        (if (fitStats P data).2.1 > 0 then
          max 0 (min 1 (1 - (fitStats P data).1 / (fitStats P data).2.1))
         else 0),
        Real.sqrt ((fitStats P data).1 / (data.length : ℝ)),
        !(fitStats P data).2.2⟩ :=
  ⟨_, rfl⟩

theorem fitGompertzCurve_r2_bounds (data : List ℝ) :
    (fitGompertzCurve data).elim True (fun res =>
      0 ≤ res.r2 ∧ res.r2 ≤ 1 ∧
      ((fitStats res.params data).2.1 = 0 → res.r2 = 0) ∧
      (res.valid = true → (fitStats res.params data).2.2 = false)) := by
  obtain ⟨P, hP⟩ := fit_result_form data
  rw [hP]
  simp only [Option.elim]
  refine ⟨?_, ?_, ?_, ?_⟩
  · split
    · exact le_max_left _ _
    · exact le_refl (0 : ℝ)
  · split
    · exact max_le (by norm_num) (min_le_left _ _)
    · norm_num
  · intro h
    rw [if_neg]
    rw [h]
    exact lt_irrefl (0 : ℝ)
  · intro h
    simpa using h

/-- The model `gompertzModel` returns `NaN` whenever `K ≤ 0`. -/
theorem gompertzModel_nan_of_K_nonpos {t K b t0 : ℝ} (h : K ≤ 0) :
    gompertzModel t K b t0 = .nan := by
  simp [gompertzModel, h]

/-- On the all-zero one-point series every grid candidate `K = 0·mult` is
rejected by the `K ≤ max` guard, so the grid search finds nothing. -/
theorem gridSearch_zero : gridSearch [(0 : ℝ)] = none := by
  norm_num [gridSearch, K_steps, listMax, List.foldl]

/-- With `K = 0` the very first gradient evaluation on `[0]` hits a `NaN`
model value, so a refinement step aborts. -/
theorem refineStep_zero (x y w z : ℝ) :
    refineStep [(0 : ℝ)] x y ⟨0, w, z⟩ = none := by
  have h : gompertzModel (0 : ℝ) 0 w z = .nan :=
    gompertzModel_nan_of_K_nonpos le_rfl
  simp [refineStep, grads, h]

/-- Hence the 50-iteration refinement loop leaves the parameters alone. -/
theorem refineParams_zero (x y w z : ℝ) :
    refineParams [(0 : ℝ)] x y 50 ⟨0, w, z⟩ = ⟨0, w, z⟩ := by
  rw [show (50 : ℕ) = 49 + 1 from rfl]
  simp only [refineParams, refineStep_zero]

/-- The R² accumulation on `[0]` with `K = 0` skips its only point. -/
theorem fitStats_zero (w z : ℝ) :
    fitStats ⟨0, w, z⟩ [(0 : ℝ)] = (0, 0, true) := by
  have h : gompertzModel (0 : ℝ) 0 w z = .nan :=
    gompertzModel_nan_of_K_nonpos le_rfl
  simp [fitStats, r2Stats, h]

/-- Full evaluation of the fitter on the series `[0]`: the fallback
parameters have `K = 0`, refinement aborts immediately (the model value is
`NaN` because `K ≤ 0`), and the corrective clamp sets `K = max · 1.2 = 0`. -/
theorem fitGompertzCurve_zero_eval :
    fitGompertzCurve [(0 : ℝ)] = some ⟨⟨0, 0.2, 0.5⟩, 0, 0, false⟩ := by
  simp only [fitGompertzCurve, gridSearch_zero]
  norm_num [listMax, refineParams_zero, fitStats_zero, Real.sqrt_zero]

/-- C1 fails as stated: on the non-empty series `[0]` the fitter returns a
non-null result whose `K` is not greater than the maximum of the input (the
corrective clamp `K = max·1.2` is no correction when `max = 0`). -/
theorem fitGompertzCurve_K_le_max_at_zero :
    ∃ res, fitGompertzCurve [(0 : ℝ)] = some res ∧
      res.params.K ≤ listMax [(0 : ℝ)] :=
  ⟨_, fitGompertzCurve_zero_eval, by norm_num [listMax]⟩

theorem fit_params_form (data : List ℝ) :
    ∃ r q v, ∃ refined : GompertzParams, fitGompertzCurve data = some
      ⟨⟨(if refined.K ≤ listMax data then listMax data * 1.2 else refined.K),
        (if refined.b ≤ 0 ∨ refined.b > 1 then max 0.05 (min 0.5 refined.b)
         else refined.b),
        refined.t0⟩, r, q, v⟩ :=
  ⟨_, _, _, _, rfl⟩

/-- C1, amended: for every non-empty input series whose maximum is strictly
positive, a non-null fit result always satisfies `K > max(input)`. -/
theorem fitGompertzCurve_K_gt_max (data : List ℝ) (hne : data ≠ [])
    (hmax : 0 < listMax data) :
    (fitGompertzCurve data).elim True
      (fun res => listMax data < res.params.K) := by
  obtain ⟨r, q, v, refined, h⟩ := fit_params_form data
  rw [h]
  simp only [Option.elim]
  split
  · nlinarith
  · rename_i hgt
    exact lt_of_not_le hgt

/-- Witness for the amended C1 on the one-point series `[1]`. -/
theorem fitGompertzCurve_K_gt_max_witness :
    (fitGompertzCurve [(1 : ℝ)]).elim True
      (fun res => listMax [(1 : ℝ)] < res.params.K) :=
  fitGompertzCurve_K_gt_max [1] (by simp) (by norm_num [listMax])

/-! ## Claims about `analyzeDataQuality` and `confirmCell` -/

/-- The series returned by the analyzer, exposed as the conditional map that
embeds the source's in-place `isOutlier` mutation. -/
theorem analyzeDataQuality_snd (data : List ObservedPoint) :
    (analyzeDataQuality data).2 =
      (if (data.filter (fun d => !d.isMissing)).length ≥ 5 then
        data.map (fun d =>
          if !d.isMissing ∧
              |(d.accounts -
                  meanOf ((data.filter (fun d => !d.isMissing)).map (·.accounts))) /
                stdDevOf ((data.filter (fun d => !d.isMissing)).map (·.accounts))| > 2
          then { d with isOutlier := true }
          else d)
      else data) := rfl

/-- Replacing one point by another with the same `accounts` and `isMissing`
fields leaves the series of valid (non-missing) values untouched. -/
theorem valid_vals_set (data : List ObservedPoint) : ∀ (i : ℕ) (q : ObservedPoint),
    q.accounts = (data.getD i pt0).accounts →
    q.isMissing = (data.getD i pt0).isMissing →
    ((data.set i q).filter (fun d => !d.isMissing)).map (·.accounts)
      = (data.filter (fun d => !d.isMissing)).map (·.accounts) := by
  induction data with
  | nil => intro i q _ _; rfl
  | cons d rest ih =>
      intro i q hacc hmiss
      cases i with
      | zero =>
          rw [List.getD_cons_zero] at hacc hmiss
          rw [List.set_cons_zero]
          simp only [List.filter_cons, hmiss]
          by_cases hm : d.isMissing
          · simp [hm]
          · simp [hm, hacc]
      | succ j =>
          rw [List.getD_cons_succ] at hacc hmiss
          rw [List.set_cons_succ]
          simp only [List.filter_cons]
          by_cases hm : d.isMissing
          · simp only [hm, Bool.not_true]
            exact ih j q hacc hmiss
          · simp only [hm, Bool.not_false, if_pos, List.map_cons]
            rw [ih j q hacc hmiss]

/-- Clearing the outlier flag and reclassifying a point leaves the series of
valid (non-missing) values untouched: `confirmCell`'s write changes neither
`accounts` nor `isMissing`, so the re-analysis inside `confirmCell` sees the
same mean and standard deviation. -/
theorem confirm_set_valid_vals (data : List ObservedPoint) (i : ℕ) :
    ((data.set i
        { data.getD i pt0 with isOutlier := false, dataType := .Confirmed
          }).filter (fun d => !d.isMissing)).map (·.accounts)
      = (data.filter (fun d => !d.isMissing)).map (·.accounts) :=
  valid_vals_set data i _ rfl rfl

/-- A six-point series whose last value is a genuine outlier (its z-score is
the square root of 5, which exceeds 2), already flagged by an analysis. -/
def flaggedSample : List ObservedPoint :=
  [⟨"Q1 2020", 1, false, false, .Original⟩,
   ⟨"Q2 2020", 1, false, false, .Original⟩,
   ⟨"Q3 2020", 1, false, false, .Original⟩,
   ⟨"Q4 2020", 1, false, false, .Original⟩,
   ⟨"Q1 2021", 1, false, false, .Original⟩,
   ⟨"Q2 2021", 10, false, true, .Original⟩]

/-- C10 fails as stated: `confirmCell` does not clear the flag of a point
whose z-score still exceeds 2, because the `analyzeDataQuality()` call
embedded in `confirmCell` (`src/app.js` line 727) immediately re-flags it.
On `flaggedSample`, index 5 enters flagged and leaves flagged. -/
theorem confirmCell_reflag_at_outlier :
    (flaggedSample.getD 5 pt0).isOutlier = true ∧
    ((confirmCell flaggedSample 5).getD 5 pt0).isOutlier = true := by
  constructor
  · rfl
  · have hs45 : Real.sqrt 45 < 7.5 :=
      (Real.sqrt_lt' (by norm_num)).mpr (by norm_num)
    have h4 : Real.sqrt 4 = 2 := by
      rw [show (4 : ℝ) = 2 ^ 2 by norm_num]
      exact Real.sqrt_sq (by norm_num)
    have hcond : 2 < |15 / 2 / (Real.sqrt 45 / Real.sqrt 4)| := by
      have hpos : 0 < Real.sqrt 45 := Real.sqrt_pos.mpr (by norm_num)
      rw [h4, abs_of_pos (by positivity), lt_div_iff (by positivity)]
      nlinarith
    simp only [confirmCell, analyzeDataQuality_snd]
    norm_num [flaggedSample, List.set, List.getD, List.filter, List.map,
      meanOf, stdDevOf, pt0]
    split
    · rfl
    · rename_i hfalse
      exact absurd hcond hfalse

/-- C10, amended: `analyzeDataQuality` only ever sets `isOutlier` to `true`,
never back to `false` — a point that enters flagged leaves flagged — and the
separate `confirmCell` operation clears the flag at its index, the clear
surviving the re-analysis embedded in `confirmCell` whenever the point's
recomputed z-score does not still exceed 2. -/
theorem analyzeDataQuality_outlier_frame (data : List ObservedPoint) (i : ℕ) :
    ((data.getD i pt0).isOutlier = true →
      (((analyzeDataQuality data).2).getD i pt0).isOutlier = true) ∧
    (|((data.getD i pt0).accounts -
        meanOf ((data.filter (fun d => !d.isMissing)).map (·.accounts))) /
        stdDevOf ((data.filter (fun d => !d.isMissing)).map (·.accounts))| ≤ 2 →
      ((confirmCell data i).getD i pt0).isOutlier = false) := by
  constructor
  · intro h
    rw [analyzeDataQuality_snd]
    split
    · rw [List.getD_eq_getElem?_getD, List.getElem?_map]
      rw [List.getD_eq_getElem?_getD] at h
      cases hget : data[i]? with
      | none =>
          rw [hget] at h
          simp [pt0] at h
      | some p =>
          rw [hget] at h
          simp only [Option.getD_some] at h
          simp only [Option.map_some', Option.getD_some]
          split
          · rfl
          · exact h
    · exact h
  · intro hz
    simp only [confirmCell]
    rw [analyzeDataQuality_snd]
    have hlen := congrArg List.length (confirm_set_valid_vals data i)
    simp only [List.length_map] at hlen
    simp only [confirm_set_valid_vals data i, hlen]
    split
    · rw [List.getD_eq_getElem?_getD, List.getElem?_map,
        List.getElem?_set_self']
      cases data[i]? with
      | none => rfl
      | some q =>
          simp only [Option.map_eq_map, Option.map_some', Option.getD_some,
            Function.const_apply]
          rw [if_neg]
          exact fun hc => (not_lt.mpr hz) hc.2
    · rw [List.getD_eq_getElem?_getD, List.getElem?_set_self']
      cases data[i]? with
      | none => rfl
      | some q => rfl

/-- Witness for C10 on a one-point series whose point is already flagged (its
z-score is `0/0 = 0 ≤ 2`, so the clear persists). -/
theorem analyzeDataQuality_outlier_frame_witness :
    (((analyzeDataQuality [⟨"Q1 2020", 1, false, true, .Original⟩]).2).getD 0
        pt0).isOutlier = true ∧
    ((confirmCell [⟨"Q1 2020", 1, false, true, .Original⟩] 0).getD 0
        pt0).isOutlier = false :=
  ⟨(analyzeDataQuality_outlier_frame _ 0).1 rfl,
   (analyzeDataQuality_outlier_frame _ 0).2 (by
      simp only [List.filter, List.map, List.getD_cons_zero, meanOf,
        List.sum_cons, List.sum_nil, List.length_cons, List.length_nil]
      norm_num)⟩

/-- A chain of non-decreasing values has no decreasing adjacent pair. -/
theorem countDecreases_zero_of_chain :
    ∀ {l : List ℝ}, l.Chain' (· ≤ ·) → countDecreases l = 0 := by
  intro l
  induction l with
  | nil => intro _; rfl
  | cons a t ih =>
      cases t with
      | nil => intro _; rfl
      | cons b rest =>
          intro h
          rw [List.chain'_cons] at h
          unfold countDecreases
          rw [if_neg (not_lt.mpr h.1), ih h.2, zero_add]

/-- C6: on a 20-point series with no missing values, non-decreasing quarter
over quarter, and no point whose z-score exceeds 2, `analyzeDataQuality`
returns `score = 100` and the single "excellent" data-completeness issue. -/
theorem analyzeDataQuality_perfect (data : List ObservedPoint)
    (hlen : data.length = 20)
    (hmiss : ∀ d ∈ data, d.isMissing = false)
    (hmono : data.Chain' (fun a b => a.accounts ≤ b.accounts))
    (hz : ∀ d ∈ data,
      |(d.accounts - meanOf (data.map (·.accounts))) /
        stdDevOf (data.map (·.accounts))| ≤ 2) :
    (analyzeDataQuality data).1.score = 100 ∧
    (analyzeDataQuality data).1.issues = [.excellent] := by
  have hfilter : data.filter (fun d => !d.isMissing) = data :=
    List.filter_eq_self.mpr (fun a ha => by simp [hmiss a ha])
  have hfilter2 : data.filter (fun d => d.isMissing) = [] :=
    List.filter_eq_nil.mpr (fun a ha => by simp [hmiss a ha])
  have hmono2 : (data.map (·.accounts)).Chain' (· ≤ ·) :=
    (List.chain'_map _).mpr hmono
  have houtlier :
      (data.map (·.accounts)).filter
        (fun v => |(v - meanOf (data.map (·.accounts))) /
          stdDevOf (data.map (·.accounts))| > 2) = [] := by
    apply List.filter_eq_nil.mpr
    intro v hv
    obtain ⟨d, hd, rfl⟩ := List.mem_map.mp hv
    simpa using not_lt.mpr (hz d hd)
  simp only [analyzeDataQuality, hfilter, hfilter2]
  rw [countDecreases_zero_of_chain hmono2]
  simp only [houtlier, hlen, List.length_nil, List.length_map]
  norm_num

/-- A complete, constant, 20-quarter sample series. -/
def perfectSample : List ObservedPoint :=
  List.replicate 20 ⟨"Q1 2020", 1, false, false, .Original⟩

/-- Witness for C6 on the constant 20-point series. -/
theorem analyzeDataQuality_perfect_witness :
    (analyzeDataQuality perfectSample).1.score = 100 ∧
    (analyzeDataQuality perfectSample).1.issues = [.excellent] := by
  apply analyzeDataQuality_perfect
  · rfl
  · intro d hd
    rw [List.eq_of_mem_replicate hd]
  · have : ∀ n, (List.replicate n
        (⟨"Q1 2020", 1, false, false, .Original⟩ : ObservedPoint)).Chain'
          (fun a b => a.accounts ≤ b.accounts) := by
      intro n
      induction n with
      | zero => exact List.chain'_nil
      | succ m ih =>
          cases m with
          | zero => simp [List.replicate]
          | succ k =>
              rw [List.replicate, List.replicate, List.chain'_cons]
              exact ⟨le_refl _, by rw [← List.replicate]; exact ih⟩
    exact this 20
  · intro d hd
    rw [List.eq_of_mem_replicate hd]
    have : meanOf (perfectSample.map (·.accounts)) = 1 := by
      simp [perfectSample, meanOf, List.map_replicate, List.sum_replicate]
      norm_num
    rw [this]
    norm_num

/-! ## Claims about `parseAndDisplayData` -/

/-- A batch containing a bad line always makes the parse loop throw. -/
theorem parseLines_error_of_badLine (pf : String → Option ℝ) :
    ∀ lines : List String, (∃ l ∈ lines, badLine pf l) →
      ∃ msg, parseLines pf lines = .error msg := by
  intro lines
  induction lines with
  | nil =>
      rintro ⟨l, hl, -⟩
      exact absurd hl (List.not_mem_nil l)
  | cons line rest ih =>
      rintro ⟨l, hl, hbad⟩
      by_cases htrim : jsTrim line = ""
      · rw [parseLines, if_pos htrim]
        apply ih
        rcases List.mem_cons.mp hl with rfl | hmem
        · exact absurd htrim hbad.1
        · exact ⟨l, hmem, hbad⟩
      · rw [parseLines, if_neg htrim]
        by_cases hparts : (jsSplit ',' line).length ≠ 2
        · rw [if_pos hparts]
          exact ⟨_, rfl⟩
        · rw [if_neg hparts]
          by_cases hmark :
              isMissingMarker (jsTrim ((jsSplit ',' line).getD 1 "")) = true
          · rw [if_pos hmark]
            have hrest : ∃ msg, parseLines pf rest = .error msg := by
              apply ih
              rcases List.mem_cons.mp hl with rfl | hmem
              · rcases hbad.2 with hb | hb
                · exact absurd hb hparts
                · rw [hb.1] at hmark
                  exact absurd hmark (by simp)
              · exact ⟨l, hmem, hbad⟩
            obtain ⟨msg, hmsg⟩ := hrest
            exact ⟨msg, by rw [hmsg]; rfl⟩
          · rw [if_neg hmark]
            cases hpf : pf (jsTrim ((jsSplit ',' line).getD 1 "")) with
            | none => exact ⟨_, rfl⟩
            | some x =>
                dsimp only
                by_cases hx : x < 0
                · rw [if_pos hx]
                  exact ⟨_, rfl⟩
                · rw [if_neg hx]
                  have hrest : ∃ msg, parseLines pf rest = .error msg := by
                    apply ih
                    rcases List.mem_cons.mp hl with rfl | hmem
                    · rcases hbad.2 with hb | hb
                      · exact absurd hb hparts
                      · rcases hb.2 with hb2 | ⟨y, hy, hyneg⟩
                        · rw [hpf] at hb2
                          exact absurd hb2 (by simp)
                        · rw [hpf] at hy
                          rw [Option.some_inj.mp hy] at hx
                          exact absurd hyneg hx
                    · exact ⟨l, hmem, hbad⟩
                  obtain ⟨msg, hmsg⟩ := hrest
                  exact ⟨msg, by rw [hmsg]; rfl⟩

/-- C7: if the input batch contains a bad row (wrong field count, non-numeric
non-missing value, or negative value) or fewer than 8 rows survive parsing,
`parseAndDisplayData` reports a descriptive error and leaves the stored
series `state.historicalData` exactly as it was: no partial state commit. -/
theorem parseAndDisplayData_rejects (pf : String → Option ℝ) (input : String)
    (st : AppState)
    (h : (∃ l ∈ jsSplit '\n' (jsTrim input), badLine pf l) ∨
      ∀ d, parseLines pf (jsSplit '\n' (jsTrim input)) = .ok d → d.length < 8) :
    (parseAndDisplayData pf input st).1.historicalData = st.historicalData ∧
    ∃ msg, (parseAndDisplayData pf input st).2 = some msg := by
  rcases h with h | h
  · obtain ⟨msg, hmsg⟩ := parseLines_error_of_badLine pf _ h
    simp [parseAndDisplayData, hmsg]
  · cases hp : parseLines pf (jsSplit '\n' (jsTrim input)) with
    | error msg => simp [parseAndDisplayData, hp]
    | ok d =>
        have hd := h d hp
        simp [parseAndDisplayData, hp, hd]

/-- Witness for C7: a single line without a comma is rejected and an empty
state stays empty. -/
theorem parseAndDisplayData_rejects_witness :
    (parseAndDisplayData (fun _ => none) "x" ⟨[], none⟩).1.historicalData
      = ([] : List ObservedPoint) ∧
    ∃ msg, (parseAndDisplayData (fun _ => none) "x" ⟨[], none⟩).2 = some msg :=
  parseAndDisplayData_rejects (fun _ => none) "x" ⟨[], none⟩
    (Or.inl ⟨"x", by decide, by decide, Or.inl (by decide)⟩)

end Gompertz
